/-
Verification of the material-derailleur donation-tracking server against its
natural-language specification.

The Lean definitions below are a shallow embedding of the TypeScript source:
  * src/server/src/routes/routeProtection.ts        (authenticateUser)
  * src/server/src/routes/donatedItemRoutes.ts      (POST /, GET /, GET /:id,
                                                     PUT /details/:id, DELETE /:id)
  * src/server/src/routes/donatedItemStatusRoutes.ts (POST /:id)
  * src/server/src/routes/programRoutes.ts          (signupSchema, loginSchema,
                                                     POST /register, POST /login)
  * src/server/src/schemas/donatedItemSchema.ts     (Joi schemas)
  * src/server/src/services/donatedItemService.ts   (getFileExtension,
                                                     makeSafeFilename, uploadToStorage)
  * src/server/src/services/imageAnalysisService.ts (analyzeImageTags cascade)
  * src/client-app/src/Components/Register.tsx      (computeRules / isPasswordValid)

Database access (Prisma) is embedded as explicit state passing over a `DB`
record; external services (storage, email, generative AI) are embedded as
outcome oracles passed to the handlers; fallible steps return the HTTP status
the route's catch blocks produce.
-/
import Mathlib

/-! ## Data model (spec section 3, Prisma entities) -/

/-- User row (id, email, password hash, role, status, firstLogin, reset token). -/
structure User where
  id : Nat
  email : String
  password : String
  role : String
  status : String
  firstLogin : Bool
  resetToken : Option String
deriving DecidableEq, Repr

/-- Donor row (only fields the modeled routes read). -/
structure Donor where
  id : Nat
  email : Option String
  firstName : String
  lastName : String
deriving DecidableEq, Repr

/-- Program row. -/
structure Program where
  id : Nat
  name : String
deriving DecidableEq, Repr

/-- DonatedItem row. -/
structure DonatedItem where
  id : Nat
  itemType : String
  category : String
  quantity : Int
  currentStatus : String
  dateDonated : Int
  lastUpdated : Option Int
  donorId : Nat
  programId : Option Nat
  analysisMetadata : Option String
deriving DecidableEq, Repr

/-- DonatedItemStatus row. -/
structure StatusRow where
  statusType : String
  dateModified : Int
  donatedItemId : Nat
  imageUrls : List String
deriving DecidableEq, Repr

/-- The relational store the routes touch, with id counters for inserts. -/
structure DB where
  users : List User
  donors : List Donor
  programs : List Program
  items : List DonatedItem
  statuses : List StatusRow
  nextItemId : Nat
  nextUserId : Nat
deriving DecidableEq, Repr

/-- The five allowed status strings
(`Joi.string().valid(...)` in src/server/src/schemas/donatedItemSchema.ts). -/
def statusEnum : List String :=
  ["Received", "Donated", "In storage facility", "Refurbished", "Item sold"]

/-! ## JavaScript string primitives

The JS string operations the source relies on, re-implemented over character
lists by structural recursion (so that concrete runs of the embedding reduce
inside the kernel).  The whitespace class is the ASCII part of `\s`. -/

/-- Whitespace characters of the JS `\s` class (ASCII range). -/
def wsChar (c : Char) : Bool :=
  c == ' ' || c == '\t' || c == '\n' || c == '\r'
  || c == Char.ofNat 11 || c == Char.ofNat 12

/-- `String.prototype.trim`. -/
def jsTrim (s : String) : String :=
  String.mk (((s.data.dropWhile wsChar).reverse.dropWhile wsChar).reverse)

/-- `String.prototype.toLowerCase` (ASCII range, matching `Char.toLower`). -/
def lowerStr (s : String) : String :=
  String.mk (s.data.map Char.toLower)

/-- The value `Number(s)` takes on an all-digit string. -/
def digitsVal (l : List Char) : Nat :=
  l.foldl (fun acc c => acc * 10 + (c.toNat - 48)) 0

/-- `String.prototype.split` at every character matching `p`
(JS keeps empty chunks; `"".split` gives one empty chunk). -/
def splitOnPred (p : Char → Bool) : List Char → List (List Char)
  | [] => [[]]
  | c :: t =>
    if p c then [] :: splitOnPred p t
    else
      match splitOnPred p t with
      | [] => [[c]]
      | h :: r => (c :: h) :: r

/-- String-level wrapper of `splitOnPred`. -/
def splitStrOn (p : Char → Bool) (s : String) : List String :=
  (splitOnPred p s.data).map (fun l => String.mk l)

/-- Substring test over character lists (`String.prototype.includes`). -/
def containsSub : List Char → List Char → Bool
  | [], needle => needle.isEmpty
  | c :: t, needle => needle.isPrefixOf (c :: t) || containsSub t needle

/-- `hay.includes(needle)`. -/
def strIncludes (hay needle : String) : Bool :=
  containsSub hay.data needle.data

/-- Whether the list contains two consecutive dots (the `(?!.*\.\.)` lookahead). -/
def hasDoubleDot : List Char → Bool
  | a :: b :: t => (a == '.' && b == '.') || hasDoubleDot (b :: t)
  | _ => false

/-! ## Authentication middleware (src/server/src/routes/routeProtection.ts) -/

/-- The `Authorization` header as `authenticateUser` sees it after `jwt.verify`:
absent, failing verification (malformed/expired/bad signature), or a decoded
token carrying `userId` and `role`. -/
inductive AuthTok where
  | missing : AuthTok
  | bad : AuthTok
  | ok (userId : Nat) (role : String) : AuthTok
deriving DecidableEq, Repr

/-- Outcome of `authenticateUser`: `granted` (the function returned `true`) or
`denied code` (it wrote `code` to the response and returned `false`). -/
inductive AuthResult where
  | granted (userId : Nat) (role : String) : AuthResult
  | denied (code : Nat) : AuthResult
deriving DecidableEq, Repr

/-- Whether the middleware denied the request. -/
def AuthResult.isDenied : AuthResult → Bool
  | .granted _ _ => false
  | .denied _ => true

/-- `authenticateUser(req, res, adminPerm)` from routeProtection.ts:
401 when the header is missing or `jwt.verify` throws; 403 when `adminPerm`
and the decoded role is not ADMIN; then a DB lookup of the user record, and
403 when a record exists whose status is not ACTIVE.  When the lookup finds
no record the status check is skipped and access is granted. -/
def authenticateUser (tok : AuthTok) (adminPerm : Bool) (db : DB) : AuthResult :=
  match tok with
  | .missing => .denied 401
  | .bad => .denied 401
  | .ok userId role =>
    if adminPerm && role != "ADMIN" then .denied 403
    else
      match db.users.find? (fun u => u.id == userId) with
      | some u => if u.status != "ACTIVE" then .denied 403 else .granted userId role
      | none => .granted userId role

/-! ## Joi schemas (src/server/src/schemas/donatedItemSchema.ts) and the
validator middleware (src/server/src/validators/donatedItemValidator.ts) -/

/-- A numeric form field as Joi's `alternatives().try(number..., string.pattern(/^\d+$/))`
receives it: a number, a raw string, an empty string (form-data), or absent. -/
inductive NumField where
  | num (n : Int) : NumField
  | str (s : String) : NumField
  | emptyStr : NumField
  | absent : NumField
deriving DecidableEq, Repr

/-- `Joi.number().integer().positive()` alternative with the numeric-string
pattern `/^\d+$/` (which also matches "0"). -/
def numFieldPosOrDigits : NumField → Bool
  | .num n => decide (0 < n)
  | .str s => !s.isEmpty && s.data.all Char.isDigit
  | .emptyStr => false
  | .absent => false

/-- `quantity`: `Joi.number().integer().min(1)` or digit string. -/
def numFieldQuantity : NumField → Bool
  | .num n => decide (1 ≤ n)
  | .str s => !s.isEmpty && s.data.all Char.isDigit
  | .emptyStr => false
  | .absent => false

/-- `programId`: positive number, digit string, or the empty string allowed by
`Joi.string().allow('').empty('')`; the field itself is `.optional()`. -/
def numFieldProgram : NumField → Bool
  | .num n => decide (0 < n)
  | .str s => !s.isEmpty && s.data.all Char.isDigit
  | .emptyStr => true
  | .absent => true

/-- `Number(x)` as the route applies it to a Joi-validated numeric field:
numbers stay, digit strings parse, `null`/empty coerce to 0. -/
def NumField.toNumber : NumField → Int
  | .num n => n
  | .str s => (digitsVal s.data : Int)
  | .emptyStr => 0
  | .absent => 0

/-- Raw request body for POST /donatedItem and PUT /donatedItem/details/:id as
the Joi schema sees it.  `dateDonated` is `none` when absent or not a valid
ISO date, otherwise the parsed timestamp (milliseconds). -/
structure ItemBody where
  itemType : Option String
  category : Option String
  quantity : NumField
  currentStatus : Option String
  donorId : NumField
  programId : NumField
  dateDonated : Option Int
  optOutAnalysis : Bool
deriving DecidableEq, Repr

/-- `donatedItemSchema.validate(body, {convert: true, abortEarly: false})`:
itemType/category trimmed non-empty, currentStatus in the fixed enum,
donorId positive-or-digit-string, programId optional, dateDonated a valid
ISO date.  (`optOutAnalysis` is coerced with a default and never fails.) -/
def joiItemOk (b : ItemBody) : Bool :=
  (match b.itemType with | some s => !((jsTrim s).isEmpty) | none => false)
  && (match b.category with | some s => !((jsTrim s).isEmpty) | none => false)
  && numFieldQuantity b.quantity
  && (match b.currentStatus with | some s => statusEnum.contains s | none => false)
  && numFieldPosOrDigits b.donorId
  && numFieldProgram b.programId
  && b.dateDonated.isSome

/-- Body after the validator middleware and the route's own coercions
(`Number(...)`, `String(...).trim()`); the middleware also normalizes an empty
`programId` form field to null, which `Number(null)` later coerces to 0. -/
structure NormItemBody where
  itemType : String
  category : String
  quantity : Int
  currentStatus : String
  donorId : Int
  programId : Int
  dateDonated : Int
  optOutAnalysis : Bool
deriving DecidableEq, Repr

/-- Joi's `convert: true` coercions plus the route's `Number`/`String(...).trim()`. -/
def normItem (b : ItemBody) : NormItemBody :=
  { itemType := jsTrim (b.itemType.getD "")
    category := jsTrim (b.category.getD "")
    quantity := b.quantity.toNumber
    currentStatus := jsTrim (b.currentStatus.getD "Received")
    donorId := b.donorId.toNumber
    programId := b.programId.toNumber
    dateDonated := b.dateDonated.getD 0
    optOutAnalysis := b.optOutAnalysis }

/-- Raw request body for POST /donatedItem/status/:id as `donatedItemStatusSchema`
sees it.  `informDonor` records whether the form field compares equal to the
string "true" in the handler. -/
structure StatusBody where
  statusType : Option String
  donatedItemId : NumField
  dateModified : Option Int
  informDonor : Bool
deriving DecidableEq, Repr

/-- `donatedItemStatusSchema`: statusType in the fixed enum (required),
donatedItemId an integer or digit string (required), dateModified an optional
ISO date.  The middleware applying it is not in the source tree; modelled from
the schema and the donatedItemValidator middleware that is. -/
def joiStatusOk (b : StatusBody) : Bool :=
  (match b.statusType with | some s => statusEnum.contains s | none => false)
  && (match b.donatedItemId with
      | .num _ => true
      | .str s => !s.isEmpty && s.data.all Char.isDigit
      | .emptyStr => false
      | .absent => false)

/-! ## Donor / Program existence checks (services) -/

/-- Modelled from the spec: `validateDonor` in src/server/src/services/donorService.ts
is not in the source tree; the spec says a DonatedItem reference is "validated by
existence checks before create", and the routes catch a thrown `Error` as a 400.
Returns the donor row when a donor with this id exists and an error otherwise. -/
def validateDonor (db : DB) (donorId : Int) : Except String Donor :=
  match db.donors.find? (fun d => (d.id : Int) == donorId) with
  | some d => .ok d
  | none => .error "Donor ID is not valid or does not exist."

/-- Modelled from the spec: `validateProgram` in src/server/src/services/programService.ts
is not in the source tree; its unit test (src/unnamed/part_000) pins the behavior:
a falsy programId (null / 0) yields null, an existing id yields the program, and a
missing id throws `Error` "Program ID ... is not valid or does not exist.". -/
def validateProgram (db : DB) (programId : Int) : Except String (Option Program) :=
  if programId == 0 then .ok none
  else
    match db.programs.find? (fun p => (p.id : Int) == programId) with
    | some p => .ok (some p)
    | none => .error "Program ID is not valid or does not exist."

/-! ## Upload pipeline (src/server/src/services/donatedItemService.ts) -/

/-- Environment-derived configuration (`getCfg()`); `backend` is the lowercased
STORAGE_BACKEND value. -/
structure Cfg where
  backend : String
  uploadsDir : String
  publicBaseUrl : String
  azureContainer : String
deriving DecidableEq, Repr

/-- An in-memory multer file: raw bytes plus the client-reported MIME type. -/
structure UploadFile where
  buffer : List Nat
  mimetype : String
  size : Nat
deriving DecidableEq, Repr

/-- The storage backends' visible state: files written locally (directory,
name, bytes) and blobs put to Azure (container, name, bytes). -/
structure StorageState where
  localFiles : List (String × String × List Nat)
  azureBlobs : List (String × String × List Nat)
deriving DecidableEq, Repr

/-- `getFileExtension(mimeType)`: the switch over the four known image MIME
types, defaulting to ".jpg". -/
def getFileExtension (mimeType : String) : String :=
  match mimeType with
  | "image/jpeg" => ".jpeg"
  | "image/png" => ".png"
  | "image/gif" => ".gif"
  | "image/webp" => ".webp"
  | _ => ".jpg"

/-- Characters stripped by `makeSafeFilename`'s first regex: < > : " / \ | ? * -/
def illegalFilenameChar (c : Char) : Bool :=
  c == '<' || c == '>' || c == ':' || c == '"' || c == '/' || c == '\\'
  || c == '|' || c == '?' || c == '*'

/-- `str.replace(/X+/g, r)`: every maximal run of characters matching `p`
becomes the single character `r`.  The flag records whether the previous
character was part of a run. -/
def collapseRuns (p : Char → Bool) (r : Char) : List Char → Bool → List Char
  | [], _ => []
  | c :: cs, prev =>
    if p c then
      if prev then collapseRuns p r cs true
      else r :: collapseRuns p r cs true
    else c :: collapseRuns p r cs false

/-- `makeSafeFilename(name)`: runs of illegal characters become "-", then runs
of whitespace become "_". -/
def makeSafeFilename (name : String) : String :=
  String.mk (collapseRuns wsChar '_' (collapseRuns illegalFilenameChar '-' name.data false) false)

/-- `uploadLocal(file, filename)`: write the buffer under the sanitized name in
the uploads directory and return the public URL. -/
def uploadLocal (cfg : Cfg) (file : UploadFile) (filename : String)
    (st : StorageState) : String × StorageState :=
  let safeName := makeSafeFilename filename
  (cfg.publicBaseUrl ++ "/uploads/" ++ safeName,
   { st with localFiles := st.localFiles ++ [(cfg.uploadsDir, safeName, file.buffer)] })

/-- `uploadAzureViaStorage(file, filename)`: put the buffer as a blob under the
sanitized name and return the historic "container/filename" shape. -/
def uploadAzureViaStorage (cfg : Cfg) (file : UploadFile) (filename : String)
    (st : StorageState) : String × StorageState :=
  let safeName := makeSafeFilename filename
  (cfg.azureContainer ++ "/" ++ safeName,
   { st with azureBlobs := st.azureBlobs ++ [(cfg.azureContainer, safeName, file.buffer)] })

/-- `uploadToStorage(file, filename)`: dispatch on STORAGE_BACKEND, defaulting
to azure. -/
def uploadToStorage (cfg : Cfg) (file : UploadFile) (filename : String)
    (st : StorageState) : String × StorageState :=
  if cfg.backend == "local" then uploadLocal cfg file filename st
  else uploadAzureViaStorage cfg file filename st

/-! ## Image analysis (src/server/src/services/imageAnalysisService.ts) -/

/-- The cascade of model names `analyzeImageTags` tries in order. -/
def modelCandidates : List String :=
  ["gemini-1.5-flash", "gemini-1.5-flash-8b", "gemini-1.5-pro"]

/-- The for-loop over `modelCandidates`: call `generateContent` for each model
until one succeeds.  Returns (number of calls made, whether one succeeded);
`outcome m` tells whether the call with model `m` succeeds. -/
def cascadeCalls (outcome : String → Bool) : List String → Nat × Bool
  | [] => (0, false)
  | m :: ms =>
    if outcome m then (1, true)
    else
      let r := cascadeCalls outcome ms
      (r.1 + 1, r.2)

/-- Result of `analyzeImageTags`: how many `generateContent` calls were made,
and whether the function returned normally (vs. throwing). -/
structure AnalysisRun where
  calls : Nat
  succeeded : Bool
deriving DecidableEq, Repr

/-- `analyzeImageTags(imagePath, donatedItemId, optOutAnalysis)`: opting out
returns immediately; a missing API key or image file throws before any call;
otherwise the model cascade runs and the function throws only when every
candidate failed. -/
def analyzeImageTags (optOut : Bool) (apiKeySet : Bool) (fileExists : Bool)
    (outcome : String → Bool) : AnalysisRun :=
  if optOut then { calls := 0, succeeded := true }
  else if !apiKeySet then { calls := 0, succeeded := false }
  else if !fileExists then { calls := 0, succeeded := false }
  else
    let r := cascadeCalls outcome modelCandidates
    { calls := r.1, succeeded := r.2 }

/-! ## DonatedItem routes (src/server/src/routes/donatedItemRoutes.ts) -/

/-- Max file size limit: 5MB. -/
def maxFileSize : Nat := 5 * 1024 * 1024

/-- `date.setUTCHours(0, 0, 0, 0)` on an epoch-millisecond timestamp. -/
def truncDay (t : Int) : Int := t - t.emod 86400000

/-- Outcomes of the external calls a request makes, plus the clock values the
handler reads: whether the storage uploads succeed, whether the email send
succeeds, the per-model outcome of the generative-AI call, whether the API key
is configured, the storage configuration, and `new Date()` as ISO string and
as timestamp. -/
structure Orc where
  uploadOk : Bool
  emailOk : Bool
  analysis : String → Bool
  apiKeySet : Bool
  cfg : Cfg
  nowIso : String
  now : Int

/-- The URL `uploadToStorage` returns for one image of an item:
`item-<iso>-<id><ext>` sanitized by the chosen backend.  (The storage write
itself is modeled by `uploadToStorage`.) -/
def uploadUrlFor (orc : Orc) (itemId : Nat) (f : UploadFile) : String :=
  (uploadToStorage orc.cfg f
    ("item-" ++ orc.nowIso ++ "-" ++ toString itemId ++ getFileExtension f.mimetype)
    ⟨[], []⟩).1

/-- POST /donatedItem.  Middleware `[upload.array('imageFiles', 5), donatedItemValidator]`
runs first (Joi failure → 400); the handler then authenticates (ADMIN), checks
file sizes (a thrown Error is caught as 400), re-checks the coerced fields,
runs the donor/program existence checks (a thrown Error → 400), creates the
item, uploads the images (a rejected upload → catch → 400, the created row is
kept), inserts the initial "Received" status, emails the donor, and optionally
runs image analysis (an analysis failure is caught and still answers 201). -/
def postDonatedItem (tok : AuthTok) (raw : ItemBody) (files : List UploadFile)
    (orc : Orc) (db : DB) : Nat × DB :=
  if !joiItemOk raw then (400, db)
  else
    let b := normItem raw
    match authenticateUser tok true db with
    | .denied c => (c, db)
    | .granted _ _ =>
      if files.any (fun f => maxFileSize < f.size) then (400, db)
      else if b.itemType.isEmpty then (400, db)
      else if b.category.isEmpty then (400, db)
      else if b.quantity < 1 then (400, db)
      else if b.donorId ≤ 0 then (400, db)
      else if b.programId ≤ 0 then (400, db)
      else
        match validateDonor db b.donorId with
        | .error _ => (400, db)
        | .ok donor =>
          match validateProgram db b.programId with
          | .error _ => (400, db)
          | .ok _ =>
            let dateMid := truncDay b.dateDonated
            let newId := db.nextItemId
            let newItem : DonatedItem :=
              { id := newId, itemType := b.itemType, category := b.category,
                quantity := b.quantity, currentStatus := b.currentStatus,
                dateDonated := dateMid, lastUpdated := none,
                donorId := b.donorId.toNat, programId := some b.programId.toNat,
                analysisMetadata := none }
            let db1 := { db with items := db.items ++ [newItem],
                                 nextItemId := db.nextItemId + 1 }
            if !files.isEmpty && !orc.uploadOk then (400, db1)
            else
              let imageUrls := files.map (uploadUrlFor orc newId)
              let newStatus : StatusRow :=
                { statusType := "Received", dateModified := dateMid,
                  donatedItemId := newId, imageUrls := imageUrls }
              let db2 := { db1 with statuses := db1.statuses ++ [newStatus] }
              if donor.email.isSome && !orc.emailOk then (400, db2)
              else if !b.optOutAnalysis && !files.isEmpty then
                let run := analyzeImageTags false orc.apiKeySet true orc.analysis
                if run.succeeded then
                  (201, { db2 with items := db2.items.map (fun it =>
                            if it.id == newId then
                              { it with analysisMetadata := some "tags" }
                            else it) })
                else (201, db2)
              else (201, db2)

/-- The statuses of one item. -/
def statusesOf (db : DB) (itemId : Nat) : List StatusRow :=
  db.statuses.filter (fun s => s.donatedItemId == itemId)

/-- Prisma `statuses: { orderBy: { dateModified: 'asc' } }`. -/
def sortByDate (l : List StatusRow) : List StatusRow :=
  List.insertionSort (fun a b => a.dateModified ≤ b.dateModified) l

/-- GET /donatedItem: authenticate (ADMIN), then all items with donor/program
included and statuses ordered by dateModified ascending. -/
def getAllDonatedItems (tok : AuthTok) (db : DB) :
    Nat × List (DonatedItem × List StatusRow) :=
  match authenticateUser tok true db with
  | .denied c => (c, [])
  | .granted _ _ =>
    (200, db.items.map (fun it => (it, sortByDate (statusesOf db it.id))))

/-- GET /donatedItem/:id: authenticate (ADMIN); `validateDonatedItem` returns a
Bool the route ignores; 404 when no item has the id, otherwise the item with
statuses ordered by dateModified ascending (image hydration affects only the
base64 payload, not the status rows). -/
def getDonatedItemById (tok : AuthTok) (paramId : Nat) (db : DB) :
    Nat × Option (DonatedItem × List StatusRow) :=
  match authenticateUser tok true db with
  | .denied c => (c, none)
  | .granted _ _ =>
    match db.items.find? (fun it => it.id == paramId) with
    | none => (404, none)
    | some it => (200, some (it, sortByDate (statusesOf db paramId)))

/-- PUT /donatedItem/details/:id.  Only the `donatedItemValidator` middleware
runs before the handler — there is no call to `authenticateUser`.  The handler
runs the existence checks (Error → 400) and then `prisma.donatedItem.update`;
any exception there (no row with this id, or the foreign-key violation when the
coerced programId is 0) falls to the catch block, which answers 500. -/
def putDonatedItemDetails (raw : ItemBody) (paramId : Int) (now : Int)
    (db : DB) : Nat × DB :=
  if !joiItemOk raw then (400, db)
  else
    let b := normItem raw
    match validateDonor db b.donorId with
    | .error _ => (400, db)
    | .ok _ =>
      match validateProgram db b.programId with
      | .error _ => (400, db)
      | .ok _ =>
        if b.programId == 0 then (500, db)
        else
          match db.items.find? (fun it => (it.id : Int) == paramId) with
          | none => (500, db)
          | some _ =>
            (200, { db with items := db.items.map (fun it =>
                      if (it.id : Int) == paramId then
                        { it with itemType := b.itemType, category := b.category,
                                  quantity := b.quantity,
                                  currentStatus := b.currentStatus,
                                  donorId := b.donorId.toNat,
                                  programId := some b.programId.toNat,
                                  lastUpdated := some now }
                      else it) })

/-- DELETE /donatedItem/:id.  No middleware and no call to `authenticateUser`.
`prisma.donatedItem.delete` removes the row (statuses cascade); when no row has
the id the delete throws and the catch block answers 500. -/
def deleteDonatedItem (paramId : Int) (db : DB) : Nat × DB :=
  match db.items.find? (fun it => (it.id : Int) == paramId) with
  | none => (500, db)
  | some _ =>
    (200, { db with
              items := db.items.filter (fun it => !((it.id : Int) == paramId)),
              statuses := db.statuses.filter (fun s =>
                !((s.donatedItemId : Int) == paramId)) })

/-! ## Status route (src/server/src/routes/donatedItemStatusRoutes.ts) -/

/-- POST /donatedItem/status/:id.  The status validator middleware runs first
(Joi failure → 400), then the handler authenticates (ADMIN), uploads the
images (a rejected upload falls to the catch block → 500), updates the item's
currentStatus/lastUpdated (`prisma.donatedItem.update` throws when no row has
the id → 500), appends a DonatedItemStatus row, and optionally emails the
donor (a failed send → 500 after both writes). -/
def postDonatedItemStatus (tok : AuthTok) (paramId : Int) (b : StatusBody)
    (files : List UploadFile) (orc : Orc) (db : DB) : Nat × DB :=
  if !joiStatusOk b then (400, db)
  else
    match authenticateUser tok true db with
    | .denied c => (c, db)
    | .granted _ _ =>
      let statusType := b.statusType.getD ""
      if statusType.isEmpty then (400, db)
      else if !files.isEmpty && !orc.uploadOk then (500, db)
      else
        let imageUrls := files.map (uploadUrlFor orc paramId.toNat)
        match db.items.find? (fun it => (it.id : Int) == paramId) with
        | none => (500, db)
        | some it =>
          let db1 := { db with items := db.items.map (fun (j : DonatedItem) =>
                         if (j.id : Int) == paramId then
                           { j with currentStatus := statusType,
                                    lastUpdated := some orc.now }
                         else j) }
          let newRow : StatusRow :=
            { statusType := statusType,
              dateModified := b.dateModified.getD orc.now,
              donatedItemId := paramId.toNat, imageUrls := imageUrls }
          let db2 := { db1 with statuses := db1.statuses ++ [newRow] }
          match db.donors.find? (fun d => d.id == it.donorId) with
          | some d =>
            if b.informDonor && d.email.isSome && !orc.emailOk then (500, db2)
            else (200, db2)
          | none => (200, db2)

/-! ## Registration / login (src/server/src/routes/programRoutes.ts) -/

/-- Characters JavaScript's `.` (no `s` flag) refuses to match. -/
def jsDotExcluded (c : Char) : Bool :=
  c == '\n' || c == '\r' || c == Char.ofNat 0x2028 || c == Char.ofNat 0x2029

/-- `passwordRegex = /^(?=.*[a-z])(?=.*[A-Z])(?=.*\d)(?=.*[^A-Za-z0-9]).{12,}$/`:
the whole string is at least 12 `.`-matchable characters containing a lowercase
letter, an uppercase letter, a digit and a non-alphanumeric character. -/
def passwordRegexOk (pw : String) : Bool :=
  decide (12 ≤ pw.length)
  && pw.data.all (fun c => !jsDotExcluded c)
  && pw.data.any Char.isLower
  && pw.data.any Char.isUpper
  && pw.data.any Char.isDigit
  && pw.data.any (fun c => !c.isAlphanum)

/-- Local-part characters of zod's default email pattern: [A-Za-z0-9_'+\-.]. -/
def emailLocalChar (c : Char) : Bool :=
  c.isAlphanum || c == '_' || c == Char.ofNat 39 || c == '+' || c == '-' || c == '.'

/-- Final local-part character: [A-Za-z0-9_+-]. -/
def emailLocalLastChar (c : Char) : Bool :=
  c.isAlphanum || c == '_' || c == '+' || c == '-'

/-- A pre-TLD domain label: [A-Za-z0-9][A-Za-z0-9-]*. -/
def emailLabelOk (l : List Char) : Bool :=
  match l with
  | [] => false
  | c :: rest => c.isAlphanum && rest.all (fun d => d.isAlphanum || d == '-')

/-- The TLD: [A-Za-z]{2,}. -/
def emailTldOk (l : List Char) : Bool :=
  decide (2 ≤ l.length) && l.all Char.isAlpha

/-- `z.email()`'s default pattern
`/^(?!\.)(?!.*\.\.)([A-Za-z0-9_'+\-.]*)[A-Za-z0-9_+-]@([A-Za-z0-9][A-Za-z0-9-]*\.)+[A-Za-z]{2,}$/`
(zod ships this regex as its default email check; the library itself is outside
the repository). -/
def zodEmail (s : String) : Bool :=
  (match s.data with | c :: _ => !(c == '.') | [] => true)
  && !(hasDoubleDot s.data)
  && (match splitOnPred (fun c => c == '@') s.data with
      | [localPart, domain] =>
        (match localPart.reverse with
         | [] => false
         | lastC :: restRev =>
           emailLocalLastChar lastC && restRev.all emailLocalChar)
        && (match (splitOnPred (fun c => c == '.') domain).reverse with
            | [] => false
            | tld :: preRev =>
              decide (1 ≤ preRev.length) && emailTldOk tld
              && preRev.all emailLabelOk)
      | _ => false)

/-- Separators of the name-token split in `signupSchema.superRefine`:
`/[\s\-\_\.]+/`. -/
def namePartSep (c : Char) : Bool :=
  wsChar c || c == '-' || c == '_' || c == '.'

/-- `name.split(/[\s\-\_\.]+/).filter(Boolean)`. -/
def nameParts (name : String) : List String :=
  ((splitOnPred namePartSep name.data).filter (fun l => !l.isEmpty)).map
    (fun l => String.mk l)

/-- Raw body of POST /register as `signupSchema.safeParse` sees it. -/
structure RegisterBody where
  name : Option String
  email : Option String
  password : Option String
deriving DecidableEq, Repr

/-- `signupSchema`: trimmed name of length 1..100, a zod-valid email, a password
of length ≥ 12 matching `passwordRegex`; then the `superRefine` rejects any
password containing a ≥2-character token of the lowercased name, or the
lowercased email's local part (or, when that is empty, the whole email). -/
def signupAccepts (b : RegisterBody) : Bool :=
  match b.name, b.email, b.password with
  | some nm, some em, some pw =>
    let name := jsTrim nm
    decide (1 ≤ name.length) && decide (name.length ≤ 100)
    && zodEmail em
    && decide (12 ≤ pw.length) && passwordRegexOk pw
    && (let nameLower := lowerStr name
        let emailLower := lowerStr em
        let pwdLower := lowerStr pw
        !((nameParts nameLower).any (fun part =>
            decide (2 ≤ part.length) && strIncludes pwdLower part))
        && (let localPart := (splitStrOn (fun c => c == '@') emailLower).headD ""
            !(!localPart.isEmpty && strIncludes pwdLower localPart)
            && !(strIncludes pwdLower emailLower)))
  | _, _, _ => false

/-- POST /register: schema failure → 411; existing email → 400; otherwise the
user is stored (role ADMIN, password hashed by `hash`, status defaulting to
PENDING per the add_user_status migration) → 201. -/
def registerHandler (b : RegisterBody) (hash : String → String) (db : DB) :
    Nat × DB :=
  if !signupAccepts b then (411, db)
  else
    let em := b.email.getD ""
    let pw := b.password.getD ""
    match db.users.find? (fun u => u.email == em) with
    | some _ => (400, db)
    | none =>
      (201, { db with
                users := db.users ++
                  [{ id := db.nextUserId, email := em, password := hash pw,
                     role := "ADMIN", status := "PENDING", firstLogin := false,
                     resetToken := none }],
                nextUserId := db.nextUserId + 1 })

/-- Raw body of POST /login. -/
structure LoginBody where
  email : Option String
  password : Option String
deriving DecidableEq, Repr

/-- `loginSchema`: a zod-valid email and a password of length ≥ 12 matching
`passwordRegex`. -/
def loginAccepts (b : LoginBody) : Bool :=
  match b.email, b.password with
  | some em, some pw =>
    zodEmail em && decide (12 ≤ pw.length) && passwordRegexOk pw
  | _, _ => false

/-- POST /login: schema failure → 411; unknown email → 401; bcrypt mismatch →
401; first login of a DONOR stores a reset token and answers 403; otherwise a
JWT is issued → 200. -/
def loginHandler (b : LoginBody) (bcryptOk : String → String → Bool)
    (resetTok : String) (db : DB) : Nat × DB :=
  if !loginAccepts b then (411, db)
  else
    let em := b.email.getD ""
    let pw := b.password.getD ""
    match db.users.find? (fun u => u.email == em) with
    | none => (401, db)
    | some u =>
      if !bcryptOk pw u.password then (401, db)
      else if u.firstLogin && u.role == "DONOR" then
        (403, { db with users := db.users.map (fun (v : User) =>
                  if v.id == u.id then { v with resetToken := some resetTok }
                  else v) })
      else (200, db)

/-! ## Client-side registration rules (src/client-app/src/Components/Register.tsx) -/

/-- MIN_LEN. -/
def minLen : Nat := 12

/-- The client's special-character class
`/[$&+,:;=?@#|'<>.^*()%!-]/`. -/
def clientSpecialChar (c : Char) : Bool :=
  c == '$' || c == '&' || c == '+' || c == ',' || c == ':' || c == ';'
  || c == '=' || c == '?' || c == '@' || c == '#' || c == '|'
  || c == Char.ofNat 39 || c == '<' || c == '>' || c == '.' || c == '^'
  || c == '*' || c == '(' || c == ')' || c == '%' || c == '!' || c == '-'

/-- The per-rule state the Register component tracks (`null` until a rule can
be evaluated). -/
structure RuleState where
  length : Bool
  upper : Bool
  lower : Bool
  number : Bool
  special : Bool
  noName : Option Bool
  noEmail : Option Bool
deriving DecidableEq, Repr

/-- `computeRules(password, name, email)` from Register.tsx. -/
def computeRules (password name email : String) : RuleState :=
  if password.isEmpty then
    { length := false, upper := false, lower := false, number := false,
      special := false, noName := none, noEmail := none }
  else
    let nameToken := String.mk ((jsTrim name).data.filter (fun c => !wsChar c))
    let emailLocal := jsTrim ((splitStrOn (fun c => c == '@') email).headD "")
    let hasNameToken := decide (3 ≤ nameToken.length)
    let hasEmailToken := decide (3 ≤ emailLocal.length)
    let containsName :=
      hasNameToken && strIncludes (lowerStr password) (lowerStr nameToken)
    let containsEmail :=
      hasEmailToken && strIncludes (lowerStr password) (lowerStr emailLocal)
    { length := decide (minLen ≤ password.length)
      upper := password.data.any Char.isUpper
      lower := password.data.any Char.isLower
      number := password.data.any Char.isDigit
      special := password.data.any clientSpecialChar
      noName := if hasNameToken then some (!containsName) else none
      noEmail := if hasEmailToken then some (!containsEmail) else none }

/-- `isPasswordValid(r)`: every character-class rule holds and neither
containment rule is known-violated (`null` counts as OK). -/
def isPasswordValid (r : RuleState) : Bool :=
  r.length && r.upper && r.lower && r.number && r.special
  && !(r.noName == some false) && !(r.noEmail == some false)

/-- The acceptance the Register component enforces before submitting:
`isPasswordValid(computeRules(password, name, email))`. -/
def clientRegisterValid (name email password : String) : Bool :=
  isPasswordValid (computeRules password name email)

/-- The status-enum invariant over the store: every item's currentStatus and
every status row's statusType is one of the five allowed strings. -/
def statusInv (db : DB) : Prop :=
  (∀ it ∈ db.items, it.currentStatus ∈ statusEnum)
  ∧ (∀ s ∈ db.statuses, s.statusType ∈ statusEnum)

/-! ## Concrete fixtures used by witnesses and counterexamples -/

/-- A storage configuration in local mode. -/
def exCfg : Cfg :=
  { backend := "local", uploadsDir := "uploads",
    publicBaseUrl := "http://localhost:5050", azureContainer := "mdma-dev" }

/-- All external calls succeed. -/
def exOrc : Orc :=
  { uploadOk := true, emailOk := true, analysis := fun _ => true,
    apiKeySet := true, cfg := exCfg, nowIso := "2026-01-01T00:00:00.000Z",
    now := 100 }

/-- Like `exOrc` but every storage upload fails. -/
def failUploadOrc : Orc :=
  { exOrc with uploadOk := false }

/-- An active ADMIN user. -/
def user1 : User :=
  { id := 1, email := "admin@example.com", password := "h", role := "ADMIN",
    status := "ACTIVE", firstLogin := false, resetToken := none }

/-- A donor without an email address (so the notification step is skipped). -/
def donor1 : Donor :=
  { id := 1, email := none, firstName := "Ann", lastName := "Lee" }

/-- A program. -/
def program1 : Program :=
  { id := 1, name := "Bikes" }

/-- An existing donated item. -/
def item1 : DonatedItem :=
  { id := 1, itemType := "Bike", category := "Sports", quantity := 1,
    currentStatus := "Received", dateDonated := 0, lastUpdated := none,
    donorId := 1, programId := some 1, analysisMetadata := none }

/-- Two status rows of item 1, stored out of date order. -/
def st1 : StatusRow :=
  { statusType := "Donated", dateModified := 5, donatedItemId := 1,
    imageUrls := [] }

/-- See `st1`. -/
def st2 : StatusRow :=
  { statusType := "Received", dateModified := 0, donatedItemId := 1,
    imageUrls := [] }

/-- A small store with one of everything. -/
def exDb : DB :=
  { users := [user1], donors := [donor1], programs := [program1],
    items := [item1], statuses := [st1, st2], nextItemId := 2, nextUserId := 2 }

/-- A decoded ADMIN token for user 1. -/
def exTok : AuthTok := .ok 1 "ADMIN"

/-- A Joi-valid POST /donatedItem body referencing donor 1 and program 1. -/
def validItemBody : ItemBody :=
  { itemType := some "Bike", category := some "Sports", quantity := .num 1,
    currentStatus := some "Received", donorId := .num 1, programId := .num 1,
    dateDonated := some 0, optOutAnalysis := true }

/-- The same body with the optional programId omitted. -/
def noProgBody : ItemBody :=
  { validItemBody with programId := .absent }

/-- A 1-byte JPEG upload. -/
def exFile : UploadFile :=
  { buffer := [255], mimetype := "image/jpeg", size := 1 }

/-! ## Theorems -/

/-- Helper: the middleware only ever denies with 401 or 403. -/
theorem authenticateUser_denied_code (tok : AuthTok) (adminPerm : Bool) (db : DB)
    (c : Nat) (h : authenticateUser tok adminPerm db = .denied c) :
    c = 401 ∨ c = 403 := by
  cases tok with
  | missing => simp [authenticateUser] at h; omega
  | bad => simp [authenticateUser] at h; omega
  | ok uid role =>
    simp only [authenticateUser] at h
    split at h
    · simp at h; omega
    · split at h
      · split at h
        · simp at h; omega
        · simp at h
      · simp at h

/-- C9: `authenticateUser` denies exactly when the Authorization header is
missing, JWT verification fails, `adminPerm` holds and the role is not ADMIN,
or a user record exists whose status is not ACTIVE; in particular a verified
token whose userId matches no user record is granted access, the account-status
check being skipped when the lookup returns nothing. -/
theorem authenticateUser_denies_iff (tok : AuthTok) (adminPerm : Bool) (db : DB) :
    ((authenticateUser tok adminPerm db).isDenied = true ↔
      (tok = .missing ∨ tok = .bad ∨
        ∃ uid role, tok = .ok uid role ∧
          ((adminPerm = true ∧ role ≠ "ADMIN") ∨
            ∃ u, db.users.find? (fun v => v.id == uid) = some u ∧
              u.status ≠ "ACTIVE")))
    ∧ (∀ uid role, tok = .ok uid role →
        db.users.find? (fun v => v.id == uid) = none →
        ¬(adminPerm = true ∧ role ≠ "ADMIN") →
        authenticateUser tok adminPerm db = .granted uid role) := by
  constructor
  · cases tok with
    | missing => simp [authenticateUser, AuthResult.isDenied]
    | bad => simp [authenticateUser, AuthResult.isDenied]
    | ok uid role =>
      simp only [authenticateUser]
      constructor
      · intro hden
        refine Or.inr (Or.inr ⟨uid, role, rfl, ?_⟩)
        by_cases hrole : adminPerm = true ∧ role ≠ "ADMIN"
        · exact Or.inl hrole
        · right
          rw [if_neg (by
            intro hcon
            simp only [Bool.and_eq_true, bne_iff_ne, ne_eq] at hcon
            exact hrole ⟨hcon.1, hcon.2⟩)] at hden
          cases hfind : db.users.find? (fun v => v.id == uid) with
          | none => rw [hfind] at hden; simp [AuthResult.isDenied] at hden
          | some u =>
            rw [hfind] at hden
            by_cases hst : u.status = "ACTIVE"
            · simp [AuthResult.isDenied, hst] at hden
            · exact ⟨u, rfl, hst⟩
      · intro hdis
        rcases hdis with h | h | ⟨u2, r2, heq, hrest⟩
        · exact AuthTok.noConfusion h
        · exact AuthTok.noConfusion h
        · injection heq with h1 h2
          subst h1; subst h2
          rcases hrest with hx | ⟨u, hu, hs⟩
          · rw [if_pos (by simp [hx.1, hx.2])]
            simp [AuthResult.isDenied]
          · by_cases hrole : adminPerm = true ∧ role ≠ "ADMIN"
            · rw [if_pos (by simp [hrole.1, hrole.2])]
              simp [AuthResult.isDenied]
            · rw [if_neg (by
                intro hcon
                simp only [Bool.and_eq_true, bne_iff_ne, ne_eq] at hcon
                exact hrole ⟨hcon.1, hcon.2⟩)]
              rw [hu]
              simp [AuthResult.isDenied, hs]
  · intro uid role htok hfind hperm
    subst htok
    simp only [authenticateUser, hfind]
    rw [if_neg]
    intro hcon
    simp only [Bool.and_eq_true, bne_iff_ne, ne_eq] at hcon
    exact hperm ⟨hcon.1, hcon.2⟩

/-- Witness for C9: a verified ADMIN token for a userId with no user record in
an empty store is granted access. -/
theorem authenticateUser_denies_iff_witness :
    authenticateUser (.ok 5 "ADMIN") true
      { users := [], donors := [], programs := [], items := [], statuses := [],
        nextItemId := 0, nextUserId := 0 } = .granted 5 "ADMIN" :=
  (authenticateUser_denies_iff (.ok 5 "ADMIN") true
      { users := [], donors := [], programs := [], items := [], statuses := [],
        nextItemId := 0, nextUserId := 0 }).2 5 "ADMIN" rfl rfl
    (by simp)

/-- C8: the upload pipeline.  `getFileExtension` maps the four known image
MIME types to their extensions and everything else to ".jpg"; `uploadToStorage`
writes the buffer under the sanitized filename and returns
`<PUBLIC_BASE_URL>/uploads/<safeName>` in local mode and
`<AZURE_CONTAINER>/<safeName>` otherwise (azure mode). -/
theorem upload_pipeline (cfg : Cfg) (file : UploadFile) (filename : String)
    (st : StorageState) (m : String) :
    (getFileExtension m =
      if m = "image/jpeg" then ".jpeg"
      else if m = "image/png" then ".png"
      else if m = "image/gif" then ".gif"
      else if m = "image/webp" then ".webp"
      else ".jpg")
    ∧ ((uploadToStorage cfg file filename st).1 =
        if cfg.backend = "local" then
          cfg.publicBaseUrl ++ "/uploads/" ++ makeSafeFilename filename
        else cfg.azureContainer ++ "/" ++ makeSafeFilename filename)
    ∧ ((uploadToStorage cfg file filename st).2 =
        if cfg.backend = "local" then
          { st with localFiles := st.localFiles ++
              [(cfg.uploadsDir, makeSafeFilename filename, file.buffer)] }
        else
          { st with azureBlobs := st.azureBlobs ++
              [(cfg.azureContainer, makeSafeFilename filename, file.buffer)] }) := by
  refine ⟨?_, ?_, ?_⟩
  · unfold getFileExtension
    split
    · simp
    · simp
    · simp
    · simp
    · rename_i h1 h2 h3 h4
      simp_all
  · by_cases hb : cfg.backend = "local"
    · simp [uploadToStorage, uploadLocal, hb]
    · simp [uploadToStorage, uploadAzureViaStorage, hb]
  · by_cases hb : cfg.backend = "local"
    · simp [uploadToStorage, uploadLocal, hb]
    · simp [uploadToStorage, uploadAzureViaStorage, hb]

/-- Helper: the model-cascade loop makes one call per failing candidate until
the first success (capped at the number of candidates), and succeeds iff some
candidate succeeds. -/
theorem cascadeCalls_spec (outcome : String → Bool) (l : List String) :
    cascadeCalls outcome l =
      (min ((l.takeWhile (fun m => !outcome m)).length + 1) l.length,
        l.any outcome) := by
  induction l with
  | nil => simp [cascadeCalls]
  | cons m ms ih =>
    by_cases h : outcome m = true
    · simp [cascadeCalls, h, List.takeWhile_cons]
    · simp only [Bool.not_eq_true] at h
      simp [cascadeCalls, h, List.takeWhile_cons, ih]
      omega

/-- C7 counterexample: when the first model candidate fails and the second
succeeds, `analyzeImageTags` calls the generative endpoint twice and returns
normally — the external call is retried rather than attempted at most once and
translated to an error. -/
theorem analyzeImageTags_retries :
    (analyzeImageTags false true true
        (fun m => m == "gemini-1.5-flash-8b")).calls = 2
    ∧ (analyzeImageTags false true true
        (fun m => m == "gemini-1.5-flash-8b")).succeeded = true
    ∧ ¬((analyzeImageTags false true true
        (fun m => m == "gemini-1.5-flash-8b")).calls ≤ 1) := by
  decide

/-- C7 amended: the storage upload and email send are single oracle calls, but
the generative-AI analysis iterates over the three model candidates: it makes
one call per failing model until the first success (at least 1 and at most 3
calls) and returns normally iff some candidate succeeds; only when all three
fail does the error propagate. -/
theorem analyzeImageTags_cascade (outcome : String → Bool) :
    (analyzeImageTags false true true outcome).succeeded
        = modelCandidates.any outcome
    ∧ (analyzeImageTags false true true outcome).calls
        = min ((modelCandidates.takeWhile (fun m => !outcome m)).length + 1)
            modelCandidates.length
    ∧ 1 ≤ (analyzeImageTags false true true outcome).calls
    ∧ (analyzeImageTags false true true outcome).calls ≤ 3 := by
  have h := cascadeCalls_spec outcome modelCandidates
  simp only [analyzeImageTags, Bool.not_true, if_false, h]
  refine ⟨rfl, rfl, ?_, ?_⟩
  · simp [modelCandidates]
  · simp [modelCandidates]

/-- C10 counterexample: the triple (name "Zz", email "xy@gd.com", password
"Abcdefghijkl1_") is accepted by the server's `signupSchema` (the underscore is
a non-alphanumeric character) but rejected by the client's rule set (the
underscore is not in the client's special-character list), so the two do not
accept the same inputs. -/
theorem client_server_password_disagree :
    clientRegisterValid "Zz" "xy@gd.com" "Abcdefghijkl1_" = false
    ∧ signupAccepts
        { name := some "Zz", email := some "xy@gd.com",
          password := some "Abcdefghijkl1_" } = true := by
  decide

/-- C10 amended: the client-side rule and the server-side schema are
inequivalent in both directions — the server accepts passwords whose only
special character (such as an underscore) is outside the client's list, and the
client accepts passwords containing a 2-character token of the name, which the
server's superRefine rejects. -/
theorem client_server_password_both_directions :
    (clientRegisterValid "Zz" "xy@gd.com" "Abcdefghijkl1_" = false
      ∧ signupAccepts
          { name := some "Zz", email := some "xy@gd.com",
            password := some "Abcdefghijkl1_" } = true)
    ∧ (clientRegisterValid "Jo Smith" "xyq@gd.com" "Jo1$abcdefgh" = true
      ∧ signupAccepts
          { name := some "Jo Smith", email := some "xyq@gd.com",
            password := some "Jo1$abcdefgh" } = false) := by
  decide

/-- C1 counterexample: DELETE /donatedItem/:id on a store holding item 1,
issued without any Authorization header at all (the handler never consults
one), answers 200 — not 401/403 — and removes the stored data. -/
theorem delete_without_auth_changes_data :
    (deleteDonatedItem 1 exDb).1 = 200
    ∧ (deleteDonatedItem 1 exDb).1 ≠ 401
    ∧ (deleteDonatedItem 1 exDb).1 ≠ 403
    ∧ (deleteDonatedItem 1 exDb).2 ≠ exDb
    ∧ (deleteDonatedItem 1 exDb).2.items = [] := by
  decide

/-- C2 counterexample: a Joi-valid POST /donatedItem body that omits the
optional programId, sent with a valid ADMIN token to a store where donor 1
exists, is answered 400 and creates nothing — the handler coerces the missing
programId to 0 and rejects it, so the program reference is not optional. -/
theorem post_without_program_rejected :
    joiItemOk noProgBody = true
    ∧ postDonatedItem exTok noProgBody [] exOrc exDb = (400, exDb) := by
  decide

/-- C3 counterexample: POST /register with a body failing schema validation
(password too short) is answered 411, which is outside the claimed fixed
mapping (400 validation / 401-403 auth / 404 not-found / 500 unexpected). -/
theorem register_validation_411 :
    (registerHandler
        { name := some "Ann", email := some "ann@gd.com",
          password := some "short" } (fun s => s) exDb).1 = 411
    ∧ (411 : Nat) ≠ 400 ∧ (411 : Nat) ≠ 401 ∧ (411 : Nat) ≠ 403
    ∧ (411 : Nat) ≠ 404 ∧ (411 : Nat) ≠ 500 := by
  decide

/-- Helper: the five enum strings are their own trims and are non-empty. -/
theorem statusEnum_trim : ∀ s ∈ statusEnum, jsTrim s = s ∧ s.isEmpty = false := by
  decide

/-- Helper: a Joi-validated item body normalizes to non-empty itemType and
category and an enum currentStatus. -/
theorem joiItemOk_fields (raw : ItemBody) (h : joiItemOk raw = true) :
    (normItem raw).itemType.isEmpty = false
    ∧ (normItem raw).category.isEmpty = false
    ∧ (normItem raw).currentStatus ∈ statusEnum := by
  simp only [joiItemOk, Bool.and_eq_true] at h
  obtain ⟨⟨⟨⟨⟨⟨h1, h2⟩, h3⟩, h4⟩, h5⟩, h6⟩, h7⟩ := h
  refine ⟨?_, ?_, ?_⟩
  · cases hty : raw.itemType with
    | none => rw [hty] at h1; simp at h1
    | some t =>
      rw [hty] at h1
      simp only [Bool.not_eq_true'] at h1
      simp [normItem, hty, h1]
  · cases hc : raw.category with
    | none => rw [hc] at h2; simp at h2
    | some t =>
      rw [hc] at h2
      simp only [Bool.not_eq_true'] at h2
      simp [normItem, hc, h2]
  · cases hs : raw.currentStatus with
    | none => rw [hs] at h4; simp at h4
    | some t =>
      rw [hs] at h4
      have hmem : t ∈ statusEnum := by
        simpa using h4
      have htrim := (statusEnum_trim t hmem).1
      simpa [normItem, hs, htrim] using hmem

/-- C1 amended: of the four mutating donatedItem endpoints only POST
/donatedItem and POST /donatedItem/status/:id run the ADMIN-gated middleware
before touching the database — for those two, any request the middleware
denies is answered 401 or 403 with the store unchanged.  (PUT /details/:id and
DELETE /:id never call the middleware; the counterexample shows an
unauthenticated DELETE succeeding.) -/
theorem auth_gated_mutations (tok : AuthTok) (raw : ItemBody)
    (b : StatusBody) (pid : Int) (files : List UploadFile) (orc : Orc)
    (db : DB) (c : Nat) :
    (joiItemOk raw = true → authenticateUser tok true db = .denied c →
      postDonatedItem tok raw files orc db = (c, db) ∧ (c = 401 ∨ c = 403))
    ∧ (joiStatusOk b = true → authenticateUser tok true db = .denied c →
      postDonatedItemStatus tok pid b files orc db = (c, db)
        ∧ (c = 401 ∨ c = 403)) := by
  constructor
  · intro h1 h2
    refine ⟨?_, authenticateUser_denied_code tok true db c h2⟩
    simp [postDonatedItem, h1, h2]
  · intro h1 h2
    refine ⟨?_, authenticateUser_denied_code tok true db c h2⟩
    simp [postDonatedItemStatus, h1, h2]

/-- Witness for the amended C1: a POST /donatedItem with a valid body but no
Authorization header is answered 401 and leaves the store unchanged. -/
theorem auth_gated_mutations_witness :
    postDonatedItem .missing validItemBody [] exOrc exDb = (401, exDb) :=
  ((auth_gated_mutations .missing validItemBody
      { statusType := some "Donated", donatedItemId := .num 1,
        dateModified := none, informDonor := false }
      1 [] exOrc exDb 401).1 (by decide) (by decide)).1

/-- Helper: a Joi-validated status body carries an enum statusType. -/
theorem joiStatusOk_type (b : StatusBody) (h : joiStatusOk b = true) :
    (b.statusType.getD "") ∈ statusEnum ∧ (b.statusType.getD "").isEmpty = false := by
  simp only [joiStatusOk, Bool.and_eq_true] at h
  obtain ⟨h1, h2⟩ := h
  cases hs : b.statusType with
  | none => rw [hs] at h1; simp at h1
  | some s =>
    rw [hs] at h1
    have hmem : s ∈ statusEnum := by simpa using h1
    refine ⟨by simpa [hs] using hmem, ?_⟩
    have := (statusEnum_trim s hmem).2
    simpa [hs] using this

/-- C3 amended: the per-route status mapping holds for input validation (400),
authentication (401/403) and a missing item on GET (404) — but POST /register
and POST /login answer 411 (not 400) to schema-validation failures, and the
three handlers whose catch blocks treat every failure as unexpected answer 500
(not 404) when the target item does not exist: DELETE /donatedItem/:id,
PUT /donatedItem/details/:id, and POST /donatedItem/status/:id. -/
theorem error_status_mapping (tok : AuthTok) (raw : ItemBody) (b : StatusBody)
    (rb : RegisterBody) (lb : LoginBody) (hash : String → String)
    (bcryptOk : String → String → Bool) (resetTok : String)
    (files : List UploadFile) (orc : Orc) (db : DB) (pid : Int) (nid : Nat)
    (uid : Nat) (r : String) (c : Nat) (now : Int) (d : Donor)
    (p : Option Program) :
    (joiItemOk raw = false → postDonatedItem tok raw files orc db = (400, db))
    ∧ (joiStatusOk b = false →
        postDonatedItemStatus tok pid b files orc db = (400, db))
    ∧ (signupAccepts rb = false → registerHandler rb hash db = (411, db))
    ∧ (loginAccepts lb = false → loginHandler lb bcryptOk resetTok db = (411, db))
    ∧ (authenticateUser tok true db = .denied c → c = 401 ∨ c = 403)
    ∧ (authenticateUser tok true db = .granted uid r →
        db.items.find? (fun it => it.id == nid) = none →
        getDonatedItemById tok nid db = (404, none))
    ∧ (db.items.find? (fun it => (it.id : Int) == pid) = none →
        deleteDonatedItem pid db = (500, db))
    ∧ (joiItemOk raw = true →
        validateDonor db (normItem raw).donorId = .ok d →
        validateProgram db (normItem raw).programId = .ok p →
        (normItem raw).programId ≠ 0 →
        db.items.find? (fun it => (it.id : Int) == pid) = none →
        putDonatedItemDetails raw pid now db = (500, db))
    ∧ (joiStatusOk b = true →
        authenticateUser tok true db = .granted uid r →
        (!files.isEmpty && !orc.uploadOk) = false →
        db.items.find? (fun it => (it.id : Int) == pid) = none →
        postDonatedItemStatus tok pid b files orc db = (500, db)) := by
  refine ⟨?_, ?_, ?_, ?_, ?_, ?_, ?_, ?_, ?_⟩
  · intro h; simp [postDonatedItem, h]
  · intro h; simp [postDonatedItemStatus, h]
  · intro h; simp [registerHandler, h]
  · intro h; simp [loginHandler, h]
  · intro h; exact authenticateUser_denied_code tok true db c h
  · intro h1 h2; simp [getDonatedItemById, h1, h2]
  · intro h; simp [deleteDonatedItem, h]
  · intro h1 hd hp hz hfind
    have hz' : ((normItem raw).programId == 0) = false := by simpa using hz
    simp [putDonatedItemDetails, h1, hd, hp, hz', hfind]
  · intro h1 h2 hup hfind
    have hty := joiStatusOk_type b h1
    simp [postDonatedItemStatus, h1, h2, hty.2, hup, hfind]

/-- Witness for the amended C3: deleting the non-existent item 7 answers 500
with the store unchanged, and a Joi-valid PUT of item 7's details also answers
500 rather than 404. -/
theorem error_status_mapping_witness :
    deleteDonatedItem 7 exDb = (500, exDb)
    ∧ putDonatedItemDetails validItemBody 7 100 exDb = (500, exDb) :=
  ⟨(error_status_mapping .missing validItemBody
      { statusType := some "Donated", donatedItemId := .num 1,
        dateModified := none, informDonor := false }
      { name := none, email := none, password := none }
      { email := none, password := none }
      (fun s => s) (fun _ _ => true) "t" [] exOrc exDb 7 1 1 "ADMIN"
      401 100 donor1 (some program1)).2.2.2.2.2.2.1 (by decide),
   (error_status_mapping .missing validItemBody
      { statusType := some "Donated", donatedItemId := .num 1,
        dateModified := none, informDonor := false }
      { name := none, email := none, password := none }
      { email := none, password := none }
      (fun s => s) (fun _ _ => true) "t" [] exOrc exDb 7 1 1 "ADMIN"
      401 100 donor1 (some program1)).2.2.2.2.2.2.2.1
     (by decide) (by rfl) (by rfl) (by decide) (by decide)⟩

/-- Helper: for a positive programId, a successful `validateProgram` result is
always `some` program (the null short-circuit only fires on the falsy id 0). -/
theorem validateProgram_pos_some (db : DB) (pid : Int) (o : Option Program)
    (hp : 0 < pid) (h : validateProgram db pid = .ok o) : ∃ p, o = some p := by
  simp only [validateProgram] at h
  rw [if_neg (by simp; omega)] at h
  cases hf : db.programs.find? (fun p => (p.id : Int) == pid) with
  | none => rw [hf] at h; exact Except.noConfusion h
  | some p =>
    rw [hf] at h
    injection h with h2
    exact ⟨p, h2.symm⟩

/-- Helper: POST /donatedItem either leaves the items table unchanged or both
existence checks passed (and the program check passed with an actual program,
not the null short-circuit). -/
theorem postDonatedItem_items_cases (tok : AuthTok) (raw : ItemBody)
    (files : List UploadFile) (orc : Orc) (db : DB) :
    (postDonatedItem tok raw files orc db).2.items = db.items
    ∨ ((∃ d, validateDonor db (normItem raw).donorId = .ok d)
       ∧ (∃ p, validateProgram db (normItem raw).programId = .ok (some p))) := by
  by_cases h1 : joiItemOk raw = true
  case neg =>
    left
    simp only [Bool.not_eq_true] at h1
    simp [postDonatedItem, h1]
  case pos =>
  cases h2 : authenticateUser tok true db with
  | denied c => left; simp [postDonatedItem, h1, h2]
  | granted uid r =>
  by_cases h3 : files.any (fun f => maxFileSize < f.size) = true
  case pos => left; simp [postDonatedItem, h1, h2, h3]
  case neg =>
  simp only [Bool.not_eq_true] at h3
  by_cases h4 : (normItem raw).itemType.isEmpty = true
  case pos => left; simp [postDonatedItem, h1, h2, h3, h4]
  case neg =>
  simp only [Bool.not_eq_true] at h4
  by_cases h5 : (normItem raw).category.isEmpty = true
  case pos => left; simp [postDonatedItem, h1, h2, h3, h4, h5]
  case neg =>
  simp only [Bool.not_eq_true] at h5
  by_cases h6 : (normItem raw).quantity < 1
  case pos => left; simp [postDonatedItem, h1, h2, h3, h4, h5, h6]
  case neg =>
  by_cases h7 : (normItem raw).donorId ≤ 0
  case pos => left; simp [postDonatedItem, h1, h2, h3, h4, h5, h6, h7]
  case neg =>
  by_cases h8 : (normItem raw).programId ≤ 0
  case pos => left; simp [postDonatedItem, h1, h2, h3, h4, h5, h6, h7, h8]
  case neg =>
  cases hd : validateDonor db (normItem raw).donorId with
  | error e => left; simp [postDonatedItem, h1, h2, h3, h4, h5, h6, h7, h8, hd]
  | ok d =>
  cases hp : validateProgram db (normItem raw).programId with
  | error e =>
    left; simp [postDonatedItem, h1, h2, h3, h4, h5, h6, h7, h8, hd, hp]
  | ok o =>
    right
    obtain ⟨p, hsome⟩ :=
      validateProgram_pos_some db (normItem raw).programId o (by omega) hp
    exact ⟨⟨d, rfl⟩, ⟨p, by rw [hsome]⟩⟩

/-- C2 amended: POST /donatedItem creates an item row only when the donor
existence check and the program existence check both pass (with an actual
program); a failing existence check is answered 400 with nothing created; but
the program reference is not optional: although the Joi schema lets the
programId field be omitted or empty, the handler coerces the missing value to
0 and answers 400 before any write, so no item row can be created without a
program. -/
theorem postDonatedItem_existence (tok : AuthTok) (raw : ItemBody)
    (files : List UploadFile) (orc : Orc) (db : DB) (uid : Nat) (r : String) :
    ((postDonatedItem tok raw files orc db).2.items = db.items
      ∨ ((∃ d, validateDonor db (normItem raw).donorId = .ok d)
         ∧ (∃ p, validateProgram db (normItem raw).programId = .ok (some p))))
    ∧ (∀ e, joiItemOk raw = true →
        authenticateUser tok true db = .granted uid r →
        files.any (fun f => maxFileSize < f.size) = false →
        1 ≤ (normItem raw).quantity →
        0 < (normItem raw).donorId →
        0 < (normItem raw).programId →
        validateDonor db (normItem raw).donorId = .error e →
        postDonatedItem tok raw files orc db = (400, db))
    ∧ (∀ d e, joiItemOk raw = true →
        authenticateUser tok true db = .granted uid r →
        files.any (fun f => maxFileSize < f.size) = false →
        1 ≤ (normItem raw).quantity →
        0 < (normItem raw).donorId →
        0 < (normItem raw).programId →
        validateDonor db (normItem raw).donorId = .ok d →
        validateProgram db (normItem raw).programId = .error e →
        postDonatedItem tok raw files orc db = (400, db))
    ∧ (joiItemOk raw = true →
        authenticateUser tok true db = .granted uid r →
        files.any (fun f => maxFileSize < f.size) = false →
        1 ≤ (normItem raw).quantity →
        0 < (normItem raw).donorId →
        (raw.programId = .absent ∨ raw.programId = .emptyStr) →
        postDonatedItem tok raw files orc db = (400, db)) := by
  refine ⟨postDonatedItem_items_cases tok raw files orc db, ?_, ?_, ?_⟩
  · intro e h1 h2 h3 hq hdon hprog hd
    have hf := joiItemOk_fields raw h1
    have hq' : ¬(normItem raw).quantity < 1 := by omega
    have hdon' : ¬(normItem raw).donorId ≤ 0 := by omega
    have hprog' : ¬(normItem raw).programId ≤ 0 := by omega
    simp [postDonatedItem, h1, h2, h3, hf.1, hf.2.1, hq', hdon', hprog', hd]
  · intro d e h1 h2 h3 hq hdon hprog hd hp
    have hf := joiItemOk_fields raw h1
    have hq' : ¬(normItem raw).quantity < 1 := by omega
    have hdon' : ¬(normItem raw).donorId ≤ 0 := by omega
    have hprog' : ¬(normItem raw).programId ≤ 0 := by omega
    simp [postDonatedItem, h1, h2, h3, hf.1, hf.2.1, hq', hdon', hprog', hd, hp]
  · intro h1 h2 h3 hq hdon hcase
    have hf := joiItemOk_fields raw h1
    have hq' : ¬(normItem raw).quantity < 1 := by omega
    have hdon' : ¬(normItem raw).donorId ≤ 0 := by omega
    have hzero : (normItem raw).programId = 0 := by
      rcases hcase with h | h <;> simp [normItem, h, NumField.toNumber]
    simp [postDonatedItem, h1, h2, h3, hf.1, hf.2.1, hq', hdon', hzero]

/-- Witness for the amended C2: in a store without donor 9, a Joi-valid body
referencing donor 9 is answered 400 and creates nothing. -/
theorem postDonatedItem_existence_witness :
    postDonatedItem exTok { validItemBody with donorId := .num 9 } [] exOrc exDb
      = (400, exDb) :=
  (postDonatedItem_existence exTok { validItemBody with donorId := .num 9 }
      [] exOrc exDb 1 "ADMIN").2.1
    "Donor ID is not valid or does not exist."
    (by decide) (by decide) (by decide) (by decide) (by decide) (by decide)
    (by rfl)

/-- C6: in POST /donatedItem, when the storage upload of an attached image
fails after `prisma.donatedItem.create` succeeded, the handler's catch block
answers 400 — an error response, not 201 — and the created item row is not
rolled back: it stays in the items table (and no status row is written). -/
theorem upload_failure_keeps_item (tok : AuthTok) (raw : ItemBody)
    (files : List UploadFile) (orc : Orc) (db : DB) (uid : Nat) (r : String)
    (d : Donor) (p : Option Program)
    (h1 : joiItemOk raw = true)
    (h2 : authenticateUser tok true db = .granted uid r)
    (h3 : files.any (fun f => maxFileSize < f.size) = false)
    (hq : 1 ≤ (normItem raw).quantity)
    (hdon : 0 < (normItem raw).donorId)
    (hprog : 0 < (normItem raw).programId)
    (hd : validateDonor db (normItem raw).donorId = .ok d)
    (hp : validateProgram db (normItem raw).programId = .ok p)
    (hfiles : files.isEmpty = false)
    (hup : orc.uploadOk = false) :
    postDonatedItem tok raw files orc db =
      (400,
        { db with
            items := db.items ++
              [{ id := db.nextItemId, itemType := (normItem raw).itemType,
                 category := (normItem raw).category,
                 quantity := (normItem raw).quantity,
                 currentStatus := (normItem raw).currentStatus,
                 dateDonated := truncDay (normItem raw).dateDonated,
                 lastUpdated := none,
                 donorId := (normItem raw).donorId.toNat,
                 programId := some (normItem raw).programId.toNat,
                 analysisMetadata := none }],
            nextItemId := db.nextItemId + 1 })
    ∧ (400 : Nat) ≠ 201 := by
  have hf := joiItemOk_fields raw h1
  have hq' : ¬(normItem raw).quantity < 1 := by omega
  have hdon' : ¬(normItem raw).donorId ≤ 0 := by omega
  have hprog' : ¬(normItem raw).programId ≤ 0 := by omega
  refine ⟨?_, by decide⟩
  simp [postDonatedItem, h1, h2, h3, hf.1, hf.2.1, hq', hdon', hprog', hd, hp,
    hfiles, hup]

/-- Witness for C6: the concrete run with one attached image and a failing
upload keeps the created row (item 2) and answers 400. -/
theorem upload_failure_keeps_item_witness :
    postDonatedItem exTok validItemBody [exFile] failUploadOrc exDb =
      (400,
        { exDb with
            items := exDb.items ++
              [{ id := 2, itemType := "Bike", category := "Sports",
                 quantity := 1, currentStatus := "Received", dateDonated := 0,
                 lastUpdated := none, donorId := 1, programId := some 1,
                 analysisMetadata := none }],
            nextItemId := 3 }) :=
  (upload_failure_keeps_item exTok validItemBody [exFile] failUploadOrc exDb
      1 "ADMIN" donor1 (some program1)
      (by decide) (by decide) (by decide) (by decide) (by decide) (by decide)
      (by rfl) (by rfl) (by decide) (by decide)).1

/-- Helper: a status-enum invariant transfer along the analysis-metadata map,
which only changes `analysisMetadata`. -/
theorem statusInv_items_map_meta (l : List DonatedItem) (newId : Nat)
    (h : ∀ it ∈ l, it.currentStatus ∈ statusEnum) :
    ∀ it ∈ l.map (fun it =>
        if it.id == newId then { it with analysisMetadata := some "tags" }
        else it), it.currentStatus ∈ statusEnum := by
  intro it hit
  rcases List.mem_map.mp hit with ⟨it0, hit0, heq⟩
  by_cases hid : (it0.id == newId) = true
  · rw [if_pos hid] at heq
    rw [← heq]
    exact h it0 hit0
  · rw [if_neg hid] at heq
    rw [← heq]
    exact h it0 hit0

/-- Helper: POST /donatedItem only ever appends to the statuses table (the
rows it appends are "Received" rows), and it preserves the status-enum
invariant. -/
theorem postDonatedItem_effects (tok : AuthTok) (raw : ItemBody)
    (files : List UploadFile) (orc : Orc) (db : DB) :
    (∃ tail, (postDonatedItem tok raw files orc db).2.statuses
        = db.statuses ++ tail
      ∧ ∀ s ∈ tail, s.statusType = "Received")
    ∧ (statusInv db → statusInv (postDonatedItem tok raw files orc db).2) := by
  by_cases h1 : joiItemOk raw = true
  case neg =>
    simp only [Bool.not_eq_true] at h1
    simp [postDonatedItem, h1]
  case pos =>
  have hf := joiItemOk_fields raw h1
  cases h2 : authenticateUser tok true db with
  | denied c => simp [postDonatedItem, h1, h2]
  | granted uid r =>
  by_cases h3 : files.any (fun f => maxFileSize < f.size) = true
  case pos => simp [postDonatedItem, h1, h2, h3]
  case neg =>
  simp only [Bool.not_eq_true] at h3
  by_cases h4 : (normItem raw).itemType.isEmpty = true
  case pos => simp [postDonatedItem, h1, h2, h3, h4]
  case neg =>
  simp only [Bool.not_eq_true] at h4
  by_cases h5 : (normItem raw).category.isEmpty = true
  case pos => simp [postDonatedItem, h1, h2, h3, h4, h5]
  case neg =>
  simp only [Bool.not_eq_true] at h5
  by_cases h6 : (normItem raw).quantity < 1
  case pos => simp [postDonatedItem, h1, h2, h3, h4, h5, h6]
  case neg =>
  by_cases h7 : (normItem raw).donorId ≤ 0
  case pos => simp [postDonatedItem, h1, h2, h3, h4, h5, h6, h7]
  case neg =>
  by_cases h8 : (normItem raw).programId ≤ 0
  case pos => simp [postDonatedItem, h1, h2, h3, h4, h5, h6, h7, h8]
  case neg =>
  cases hd : validateDonor db (normItem raw).donorId with
  | error e => simp [postDonatedItem, h1, h2, h3, h4, h5, h6, h7, h8, hd]
  | ok d =>
  cases hp : validateProgram db (normItem raw).programId with
  | error e => simp [postDonatedItem, h1, h2, h3, h4, h5, h6, h7, h8, hd, hp]
  | ok o =>
  by_cases hup : (!files.isEmpty && !orc.uploadOk) = true
  case pos =>
    simp only [postDonatedItem, h1, h2, h3, h4, h5, h6, h7, h8, hd, hp, hup,
      Bool.not_true, Bool.false_eq_true, if_false, if_neg h6, if_neg h7,
      if_neg h8, if_true]
    refine ⟨⟨[], by simp, by simp⟩, fun hinv => ⟨?_, ?_⟩⟩
    · intro it hit
      rcases List.mem_append.mp hit with hold | hnew
      · exact hinv.1 it hold
      · rcases List.mem_singleton.mp hnew with rfl
        exact hf.2.2
    · intro st hst
      exact hinv.2 st hst
  case neg =>
  by_cases hm : (d.email.isSome && !orc.emailOk) = true
  case pos =>
    simp only [postDonatedItem, h1, h2, h3, h4, h5, h6, h7, h8, hd, hp, hup,
      hm, Bool.not_true, Bool.false_eq_true, if_false, if_neg h6, if_neg h7,
      if_neg h8, if_true]
    refine ⟨⟨_, rfl, by intro s hs; rcases List.mem_singleton.mp hs with rfl; rfl⟩,
      fun hinv => ⟨?_, ?_⟩⟩
    · intro it hit
      rcases List.mem_append.mp hit with hold | hnew
      · exact hinv.1 it hold
      · rcases List.mem_singleton.mp hnew with rfl
        exact hf.2.2
    · intro st hst
      rcases List.mem_append.mp hst with hold | hnew
      · exact hinv.2 st hold
      · rcases List.mem_singleton.mp hnew with rfl
        simp [statusEnum]
  case neg =>
  by_cases ha : (!(normItem raw).optOutAnalysis && !files.isEmpty) = true
  case pos =>
    by_cases hsucc : (analyzeImageTags false orc.apiKeySet true
        orc.analysis).succeeded = true
    case pos =>
      simp only [postDonatedItem, h1, h2, h3, h4, h5, h6, h7, h8, hd, hp, hup,
        hm, ha, hsucc, Bool.not_true, Bool.false_eq_true, if_false,
        if_neg h6, if_neg h7, if_neg h8, if_true]
      refine ⟨⟨_, rfl, by intro s hs; rcases List.mem_singleton.mp hs with rfl; rfl⟩,
      fun hinv => ⟨?_, ?_⟩⟩
      · refine statusInv_items_map_meta _ db.nextItemId ?_
        intro it hit
        rcases List.mem_append.mp hit with hold | hnew
        · exact hinv.1 it hold
        · rcases List.mem_singleton.mp hnew with rfl
          exact hf.2.2
      · intro st hst
        rcases List.mem_append.mp hst with hold | hnew
        · exact hinv.2 st hold
        · rcases List.mem_singleton.mp hnew with rfl
          simp [statusEnum]
    case neg =>
      simp only [postDonatedItem, h1, h2, h3, h4, h5, h6, h7, h8, hd, hp, hup,
        hm, ha, hsucc, Bool.not_true, Bool.false_eq_true, if_false,
        if_neg h6, if_neg h7, if_neg h8, if_true]
      refine ⟨⟨_, rfl, by intro s hs; rcases List.mem_singleton.mp hs with rfl; rfl⟩,
      fun hinv => ⟨?_, ?_⟩⟩
      · intro it hit
        rcases List.mem_append.mp hit with hold | hnew
        · exact hinv.1 it hold
        · rcases List.mem_singleton.mp hnew with rfl
          exact hf.2.2
      · intro st hst
        rcases List.mem_append.mp hst with hold | hnew
        · exact hinv.2 st hold
        · rcases List.mem_singleton.mp hnew with rfl
          simp [statusEnum]
  case neg =>
    simp only [postDonatedItem, h1, h2, h3, h4, h5, h6, h7, h8, hd, hp, hup,
      hm, ha, Bool.not_true, Bool.false_eq_true, if_false, if_neg h6,
      if_neg h7, if_neg h8, if_true]
    refine ⟨⟨_, rfl, by intro s hs; rcases List.mem_singleton.mp hs with rfl; rfl⟩,
      fun hinv => ⟨?_, ?_⟩⟩
    · intro it hit
      rcases List.mem_append.mp hit with hold | hnew
      · exact hinv.1 it hold
      · rcases List.mem_singleton.mp hnew with rfl
        exact hf.2.2
    · intro st hst
      rcases List.mem_append.mp hst with hold | hnew
      · exact hinv.2 st hold
      · rcases List.mem_singleton.mp hnew with rfl
        simp [statusEnum]

/-- Helper: POST /donatedItem/status/:id only appends to the statuses table
and preserves the status-enum invariant. -/
theorem postDonatedItemStatus_effects (tok : AuthTok) (pid : Int)
    (b : StatusBody) (files : List UploadFile) (orc : Orc) (db : DB) :
    (∃ tail, (postDonatedItemStatus tok pid b files orc db).2.statuses
        = db.statuses ++ tail)
    ∧ (statusInv db →
        statusInv (postDonatedItemStatus tok pid b files orc db).2) := by
  by_cases h1 : joiStatusOk b = true
  case neg =>
    simp only [Bool.not_eq_true] at h1
    simp [postDonatedItemStatus, h1]
  case pos =>
  have hty := joiStatusOk_type b h1
  cases h2 : authenticateUser tok true db with
  | denied c => simp [postDonatedItemStatus, h1, h2]
  | granted uid r =>
  by_cases h3 : (b.statusType.getD "").isEmpty = true
  case pos => rw [hty.2] at h3; exact absurd h3 (by simp)
  case neg =>
  simp only [Bool.not_eq_true] at h3
  by_cases h4 : (!files.isEmpty && !orc.uploadOk) = true
  case pos => simp [postDonatedItemStatus, h1, h2, h3, h4]
  case neg =>
  cases h5 : db.items.find? (fun it => (it.id : Int) == pid) with
  | none => simp [postDonatedItemStatus, h1, h2, h3, h4, h5]
  | some it =>
  have hkey : ∀ db2 : DB,
      db2.statuses = db.statuses ++
        [{ statusType := b.statusType.getD "",
           dateModified := b.dateModified.getD orc.now,
           donatedItemId := pid.toNat,
           imageUrls := files.map (uploadUrlFor orc pid.toNat) }] →
      db2.items = db.items.map (fun (j : DonatedItem) =>
        if (j.id : Int) == pid then
          { j with currentStatus := b.statusType.getD "",
                   lastUpdated := some orc.now }
        else j) →
      statusInv db → statusInv db2 := by
    intro db2 hst hit hinv
    constructor
    · rw [hit]
      intro x hx
      rcases List.mem_map.mp hx with ⟨x0, hx0, heq⟩
      by_cases hid : ((x0.id : Int) == pid) = true
      · rw [if_pos hid] at heq
        rw [← heq]
        exact hty.1
      · rw [if_neg hid] at heq
        rw [← heq]
        exact hinv.1 x0 hx0
    · rw [hst]
      intro x hx
      rcases List.mem_append.mp hx with hold | hnew
      · exact hinv.2 x hold
      · rcases List.mem_singleton.mp hnew with rfl
        exact hty.1
  cases h6 : db.donors.find? (fun dd => dd.id == it.donorId) with
  | none =>
    refine ⟨⟨[{ statusType := b.statusType.getD "",
                dateModified := b.dateModified.getD orc.now,
                donatedItemId := pid.toNat,
                imageUrls := files.map (uploadUrlFor orc pid.toNat) }], ?_⟩,
      fun hinv => hkey _ ?_ ?_ hinv⟩ <;>
      simp [postDonatedItemStatus, h1, h2, h3, h4, h5, h6]
  | some dd =>
    by_cases h7 : (b.informDonor && dd.email.isSome && !orc.emailOk) = true
    case pos =>
      refine ⟨⟨[{ statusType := b.statusType.getD "",
                  dateModified := b.dateModified.getD orc.now,
                  donatedItemId := pid.toNat,
                  imageUrls := files.map (uploadUrlFor orc pid.toNat) }], ?_⟩,
        fun hinv => hkey _ ?_ ?_ hinv⟩ <;>
        simp [postDonatedItemStatus, h1, h2, h3, h4, h5, h6, h7]
    case neg =>
      refine ⟨⟨[{ statusType := b.statusType.getD "",
                  dateModified := b.dateModified.getD orc.now,
                  donatedItemId := pid.toNat,
                  imageUrls := files.map (uploadUrlFor orc pid.toNat) }], ?_⟩,
        fun hinv => hkey _ ?_ ?_ hinv⟩ <;>
        simp [postDonatedItemStatus, h1, h2, h3, h4, h5, h6, h7]

/-- Helper: PUT /donatedItem/details/:id never touches the statuses table and
preserves the status-enum invariant. -/
theorem putDonatedItemDetails_effects (raw : ItemBody) (pid : Int) (now : Int)
    (db : DB) :
    (putDonatedItemDetails raw pid now db).2.statuses = db.statuses
    ∧ (statusInv db → statusInv (putDonatedItemDetails raw pid now db).2) := by
  by_cases h1 : joiItemOk raw = true
  case neg =>
    simp only [Bool.not_eq_true] at h1
    simp [putDonatedItemDetails, h1]
  case pos =>
  have hf := joiItemOk_fields raw h1
  cases hd : validateDonor db (normItem raw).donorId with
  | error e => simp [putDonatedItemDetails, h1, hd]
  | ok d =>
  cases hp : validateProgram db (normItem raw).programId with
  | error e => simp [putDonatedItemDetails, h1, hd, hp]
  | ok o =>
  by_cases hz : ((normItem raw).programId == 0) = true
  case pos => simp [putDonatedItemDetails, h1, hd, hp, hz]
  case neg =>
  cases hfind : db.items.find? (fun it => (it.id : Int) == pid) with
  | none => simp [putDonatedItemDetails, h1, hd, hp, hz, hfind]
  | some it =>
    have hres :
        (putDonatedItemDetails raw pid now db).2 =
          { db with items := db.items.map (fun it =>
              if (it.id : Int) == pid then
                { it with itemType := (normItem raw).itemType,
                          category := (normItem raw).category,
                          quantity := (normItem raw).quantity,
                          currentStatus := (normItem raw).currentStatus,
                          donorId := (normItem raw).donorId.toNat,
                          programId := some (normItem raw).programId.toNat,
                          lastUpdated := some now }
              else it) } := by
      simp [putDonatedItemDetails, h1, hd, hp, hz, hfind]
    rw [hres]
    refine ⟨rfl, fun hinv => ⟨?_, hinv.2⟩⟩
    intro x hx
    rcases List.mem_map.mp hx with ⟨x0, hx0, heq⟩
    by_cases hid : ((x0.id : Int) == pid) = true
    · rw [if_pos hid] at heq
      rw [← heq]
      exact hf.2.2
    · rw [if_neg hid] at heq
      rw [← heq]
      exact hinv.1 x0 hx0

/-- Helper: DELETE /donatedItem/:id either fails leaving the store unchanged
or removes the target item together with (by cascade) exactly its status rows;
it preserves the status-enum invariant. -/
theorem deleteDonatedItem_effects (pid : Int) (db : DB) :
    ((deleteDonatedItem pid db).2.statuses = db.statuses
      ∨ (deleteDonatedItem pid db).2.statuses
          = db.statuses.filter (fun s => !((s.donatedItemId : Int) == pid)))
    ∧ (statusInv db → statusInv (deleteDonatedItem pid db).2) := by
  cases hfind : db.items.find? (fun it => (it.id : Int) == pid) with
  | none =>
    constructor
    · left
      simp [deleteDonatedItem, hfind]
    · intro hinv
      simpa [deleteDonatedItem, hfind] using hinv
  | some it =>
    constructor
    · right
      simp [deleteDonatedItem, hfind]
    · intro hinv
      simp only [deleteDonatedItem, hfind]
      refine ⟨?_, ?_⟩
      · intro x hx
        exact hinv.1 x (List.mem_of_mem_filter hx)
      · intro x hx
        exact hinv.2 x (List.mem_of_mem_filter hx)

/-- C4: every stored `DonatedItem.currentStatus` / `DonatedItemStatus.statusType`
stays inside the five-value enum — a request carrying a status outside the set
fails Joi validation with 400 before any write, every modeled mutating handler
preserves the enum invariant — and no transition rules exist: with a valid
ADMIN token, any of the five values is accepted as the new status of an
existing item whatever its previous status, appending exactly one status row. -/
theorem status_enum_fixed :
    (∀ tok raw files orc db s, raw.currentStatus = some s → s ∉ statusEnum →
        postDonatedItem tok raw files orc db = (400, db))
    ∧ (∀ tok pid b files orc db s, b.statusType = some s → s ∉ statusEnum →
        postDonatedItemStatus tok pid b files orc db = (400, db))
    ∧ (∀ tok raw files orc db, statusInv db →
        statusInv (postDonatedItem tok raw files orc db).2)
    ∧ (∀ tok pid b files orc db, statusInv db →
        statusInv (postDonatedItemStatus tok pid b files orc db).2)
    ∧ (∀ raw pid now db, statusInv db →
        statusInv (putDonatedItemDetails raw pid now db).2)
    ∧ (∀ pid db, statusInv db → statusInv (deleteDonatedItem pid db).2)
    ∧ (∀ (s : String) (dm : Option Int) (tok : AuthTok) (pid : Int) (orc : Orc)
        (db : DB) (uid : Nat) (r : String) (it : DonatedItem),
        s ∈ statusEnum →
        authenticateUser tok true db = .granted uid r →
        db.items.find? (fun j => (j.id : Int) == pid) = some it →
        (postDonatedItemStatus tok pid
            { statusType := some s, donatedItemId := .num pid,
              dateModified := dm, informDonor := false } [] orc db).1 = 200
        ∧ (postDonatedItemStatus tok pid
            { statusType := some s, donatedItemId := .num pid,
              dateModified := dm, informDonor := false } [] orc db).2.statuses
          = db.statuses ++
            [{ statusType := s, dateModified := dm.getD orc.now,
               donatedItemId := pid.toNat, imageUrls := [] }]) := by
  refine ⟨?_, ?_, ?_, ?_, ?_, ?_, ?_⟩
  · intro tok raw files orc db s hs hnot
    have hjoi : joiItemOk raw = false := by
      rw [Bool.eq_false_iff]
      intro htrue
      simp only [joiItemOk, Bool.and_eq_true] at htrue
      obtain ⟨⟨⟨⟨⟨⟨_, _⟩, _⟩, henum⟩, _⟩, _⟩, _⟩ := htrue
      rw [hs] at henum
      exact hnot (by simpa using henum)
    simp [postDonatedItem, hjoi]
  · intro tok pid b files orc db s hs hnot
    have hjoi : joiStatusOk b = false := by
      rw [Bool.eq_false_iff]
      intro htrue
      simp only [joiStatusOk, Bool.and_eq_true] at htrue
      obtain ⟨henum, _⟩ := htrue
      rw [hs] at henum
      exact hnot (by simpa using henum)
    simp [postDonatedItemStatus, hjoi]
  · intro tok raw files orc db hinv
    exact (postDonatedItem_effects tok raw files orc db).2 hinv
  · intro tok pid b files orc db hinv
    exact (postDonatedItemStatus_effects tok pid b files orc db).2 hinv
  · intro raw pid now db hinv
    exact (putDonatedItemDetails_effects raw pid now db).2 hinv
  · intro pid db hinv
    exact (deleteDonatedItem_effects pid db).2 hinv
  · intro s dm tok pid orc db uid r it hmem h2 hfind
    have hcon : statusEnum.contains s = true := List.elem_eq_true_of_mem hmem
    have hjoi : joiStatusOk
        { statusType := some s, donatedItemId := .num pid,
          dateModified := dm, informDonor := false } = true := by
      simp only [joiStatusOk]
      simpa using hmem
    have hne : s.isEmpty = false := (statusEnum_trim s hmem).2
    cases hdon : db.donors.find? (fun dd => dd.id == it.donorId) with
    | none =>
      constructor <;>
        simp [postDonatedItemStatus, hjoi, h2, hne, hfind, hdon]
    | some dd =>
      constructor <;>
        simp [postDonatedItemStatus, hjoi, h2, hne, hfind, hdon]

/-- Witness for C4: updating existing item 1 (currently "Received") directly to
"Item sold" is accepted and appends exactly that status row. -/
theorem status_enum_fixed_witness :
    (postDonatedItemStatus exTok 1
        { statusType := some "Item sold", donatedItemId := .num 1,
          dateModified := some 7, informDonor := false } [] exOrc exDb).1 = 200
    ∧ (postDonatedItemStatus exTok 1
        { statusType := some "Item sold", donatedItemId := .num 1,
          dateModified := some 7, informDonor := false } [] exOrc exDb).2.statuses
      = exDb.statuses ++
        [{ statusType := "Item sold", dateModified := 7, donatedItemId := 1,
           imageUrls := [] }] :=
  status_enum_fixed.2.2.2.2.2.2 "Item sold" (some 7) exTok 1 exOrc exDb 1
    "ADMIN" item1 (by decide) (by decide) (by decide)

/-- Helper: the embedded `orderBy dateModified asc` sort really sorts. -/
theorem sortByDate_sorted (l : List StatusRow) :
    List.Sorted (fun a b : StatusRow => a.dateModified ≤ b.dateModified)
      (sortByDate l) := by
  haveI : IsTotal StatusRow (fun a b => a.dateModified ≤ b.dateModified) :=
    ⟨fun a b => le_total a.dateModified b.dateModified⟩
  haveI : IsTrans StatusRow (fun a b => a.dateModified ≤ b.dateModified) :=
    ⟨fun a b c hab hbc => le_trans hab hbc⟩
  exact List.sorted_insertionSort _ l

/-- C5: DonatedItemStatus rows are append-only — POST /donatedItem and POST
/donatedItem/status/:id only append to the statuses table, PUT /details/:id
and the register/login handlers leave it unchanged, and DELETE /:id only
removes rows through the cascade of the deleted item — and both GETs return
each item's statuses sorted in ascending order of dateModified. -/
theorem statuses_append_only :
    (∀ tok raw files orc db, ∃ tail,
        (postDonatedItem tok raw files orc db).2.statuses
          = db.statuses ++ tail)
    ∧ (∀ tok pid b files orc db, ∃ tail,
        (postDonatedItemStatus tok pid b files orc db).2.statuses
          = db.statuses ++ tail)
    ∧ (∀ raw pid now db,
        (putDonatedItemDetails raw pid now db).2.statuses = db.statuses)
    ∧ (∀ rb hash db, (registerHandler rb hash db).2.statuses = db.statuses)
    ∧ (∀ lb bc rt db, (loginHandler lb bc rt db).2.statuses = db.statuses)
    ∧ (∀ pid db,
        (deleteDonatedItem pid db).2.statuses = db.statuses
        ∨ (deleteDonatedItem pid db).2.statuses
            = db.statuses.filter (fun s => !((s.donatedItemId : Int) == pid)))
    ∧ (∀ tok db p, p ∈ (getAllDonatedItems tok db).2 →
        List.Sorted (fun a b : StatusRow => a.dateModified ≤ b.dateModified)
          p.2)
    ∧ (∀ tok pid db it ss,
        (getDonatedItemById tok pid db).2 = some (it, ss) →
        List.Sorted (fun a b : StatusRow => a.dateModified ≤ b.dateModified)
          ss) := by
  refine ⟨?_, ?_, ?_, ?_, ?_, ?_, ?_, ?_⟩
  · intro tok raw files orc db
    obtain ⟨tail, htail, _⟩ := (postDonatedItem_effects tok raw files orc db).1
    exact ⟨tail, htail⟩
  · intro tok pid b files orc db
    exact (postDonatedItemStatus_effects tok pid b files orc db).1
  · intro raw pid now db
    exact (putDonatedItemDetails_effects raw pid now db).1
  · intro rb hash db
    by_cases h1 : signupAccepts rb = true
    · cases h2 : db.users.find? (fun u => u.email == rb.email.getD "") with
      | none => simp [registerHandler, h1, h2]
      | some u => simp [registerHandler, h1, h2]
    · simp only [Bool.not_eq_true] at h1
      simp [registerHandler, h1]
  · intro lb bc rt db
    by_cases h1 : loginAccepts lb = true
    · cases h2 : db.users.find? (fun u => u.email == lb.email.getD "") with
      | none => simp [loginHandler, h1, h2]
      | some u =>
        by_cases h3 : bc (lb.password.getD "") u.password = true
        · by_cases h4 : (u.firstLogin && u.role == "DONOR") = true
          · simp [loginHandler, h1, h2, h3, h4]
          · simp [loginHandler, h1, h2, h3, h4]
        · simp [loginHandler, h1, h2, h3]
    · simp only [Bool.not_eq_true] at h1
      simp [loginHandler, h1]
  · intro pid db
    exact (deleteDonatedItem_effects pid db).1
  · intro tok db p hp
    cases h2 : authenticateUser tok true db with
    | denied c =>
      rw [getAllDonatedItems, h2] at hp
      simp at hp
    | granted uid r =>
      rw [getAllDonatedItems, h2] at hp
      simp only [List.mem_map] at hp
      obtain ⟨it, _, heq⟩ := hp
      rw [← heq]
      exact sortByDate_sorted _
  · intro tok pid db it ss hp
    cases h2 : authenticateUser tok true db with
    | denied c =>
      rw [getDonatedItemById, h2] at hp
      simp at hp
    | granted uid r =>
      rw [getDonatedItemById, h2] at hp
      cases hfind : db.items.find? (fun j => j.id == pid) with
      | none => rw [hfind] at hp; simp at hp
      | some it0 =>
        rw [hfind] at hp
        simp only [Option.some.injEq, Prod.mk.injEq] at hp
        rw [← hp.2]
        exact sortByDate_sorted _

/-- Witness for C5: reading item 1 returns its two status rows sorted by
dateModified (the fixture stores them out of order). -/
theorem statuses_append_only_witness :
    List.Sorted (fun a b : StatusRow => a.dateModified ≤ b.dateModified)
      [st2, st1] :=
  statuses_append_only.2.2.2.2.2.2.2 exTok 1 exDb item1 [st2, st1] (by decide)
